import Mathlib

/-!
Verification development for the sslmate-mcp repository
(src/sslmate_mcp.py): a shallow embedding in Lean 4 of the
certificate data model, the upstream search client's client-side
filtering, the JSON-RPC dispatcher MCPServer.handle_request, and the
stdio transport loop MCPServer.run_stdio, together with theorems
settling the behavioural claims about them.
-/

namespace SslmateMcp

/-- JSON values, as handled by the Python json module: null, booleans,
numbers (modelled as integers; no claim depends on fractional values),
strings, arrays and objects.  Objects are association lists in
insertion order, matching Python dict semantics. -/
inductive Json where
  | null : Json
  | bool (b : Bool) : Json
  | num (n : Int) : Json
  | str (s : String) : Json
  | arr (xs : List Json) : Json
  | obj (fields : List (String × Json)) : Json

/-- Field access on a JSON object association list: dict.get(key),
returning the first binding (Python dicts have unique keys). -/
def jget : List (String × Json) → String → Option Json
  | [], _ => none
  | (k2, v) :: rest, k => if k2 = k then some v else jget rest k

/-- Field access on a JSON value that may or may not be an object. -/
def objField : Json → String → Option Json
  | .obj fields, k => jget fields k
  | _, _ => none

/-- The pydantic model SSLMateCertificate (src/sslmate_mcp.py lines
69-79).  Fields id, tbs_sha256, pubkey_sha256, not_before and
not_after are required (no default); cert_sha256, revoked and issuer
default to None; dns_names has default_factory=list, so an absent
field yields the empty list while an explicit null yields None. -/
structure SSLMateCertificate where
  id : String
  tbs_sha256 : String
  cert_sha256 : Option String
  dns_names : Option (List String)
  pubkey_sha256 : String
  not_before : String
  not_after : String
  revoked : Option Bool
  issuer : Option (List (String × Json))

/-- Validation of a required string field: the value must be present
and be a string, otherwise pydantic raises a ValidationError. -/
def getStr : Option Json → Option String
  | some (.str s) => some s
  | _ => none

/-- Validation of an optional string field (cert_sha256): absent or
null degrade to None; a present non-string value fails validation. -/
def getOptStr : Option Json → Option (Option String)
  | none => some none
  | some .null => some none
  | some (.str s) => some (some s)
  | some _ => none

/-- Validation of a list of strings. -/
def strList : List Json → Option (List String)
  | [] => some []
  | .str s :: rest =>
    match strList rest with
    | some ss => some (s :: ss)
    | none => none
  | _ :: _ => none

/-- Validation of the dns_names field: absent defaults to the empty
list (default_factory=list); null yields None; a list of strings is
accepted; anything else fails validation. -/
def getDnsNames : Option Json → Option (Option (List String))
  | none => some (some [])
  | some .null => some none
  | some (.arr xs) =>
    match strList xs with
    | some ss => some (some ss)
    | none => none
  | some _ => none

/-- Validation of the optional revoked field. -/
def getOptBool : Option Json → Option (Option Bool)
  | none => some none
  | some .null => some none
  | some (.bool b) => some (some b)
  | some _ => none

/-- Validation of the optional issuer dictionary field. -/
def getOptObj : Option Json → Option (Option (List (String × Json)))
  | none => some none
  | some .null => some none
  | some (.obj o) => some (some o)
  | some _ => none

/-- Constructing SSLMateCertificate(**cert_data) from a JSON object:
each declared field is validated; fields of the object not declared on
the model are ignored (pydantic v2 default); a missing required field
or an ill-typed value makes construction fail (ValidationError),
modelled as none. -/
def parseCert (o : List (String × Json)) : Option SSLMateCertificate :=
  match getStr (jget o "id"), getStr (jget o "tbs_sha256"),
        getOptStr (jget o "cert_sha256"), getDnsNames (jget o "dns_names"),
        getStr (jget o "pubkey_sha256"), getStr (jget o "not_before"),
        getStr (jget o "not_after"), getOptBool (jget o "revoked"),
        getOptObj (jget o "issuer") with
  | some i, some tbs, some cs, some dns, some pub, some nb, some na,
    some rv, some iss =>
    some { id := i, tbs_sha256 := tbs, cert_sha256 := cs, dns_names := dns,
           pubkey_sha256 := pub, not_before := nb, not_after := na,
           revoked := rv, issuer := iss }
  | _, _, _, _, _, _, _, _, _ => none

/-- Constructing a certificate from an arbitrary JSON value: a
non-object raises in Python (attribute or type error) and is treated
as a failed record. -/
def parseCertJson : Json → Option SSLMateCertificate
  | .obj o => parseCert o
  | _ => none

/-- Property common_name: the first dns name, if the dns_names list is
present and non-empty (Python truthiness), else the sentinel. -/
def SSLMateCertificate.common_name (c : SSLMateCertificate) : String :=
  match c.dns_names with
  | some (d :: _) => d
  | _ => "unknown"

/-- Property subject_alt_names: self.dns_names or []. -/
def SSLMateCertificate.subject_alt_names (c : SSLMateCertificate) : List String :=
  c.dns_names.getD []

/-- Property issuer_name: the friendly_name entry of the issuer
dictionary when the dictionary is present, non-empty and has the key;
otherwise the sentinel string.  The raw JSON value is returned, as in
Python, where the dictionary values are untyped. -/
def SSLMateCertificate.issuer_name (c : SSLMateCertificate) : Json :=
  match c.issuer with
  | some o =>
    match jget o "friendly_name" with
    | some v => v
    | none => .str "unknown"
  | none => .str "unknown"

/-- Property fingerprint_sha256: self.cert_sha256 or "unknown"; the
empty string is falsy in Python and also degrades to the sentinel. -/
def SSLMateCertificate.fingerprint_sha256 (c : SSLMateCertificate) : String :=
  match c.cert_sha256 with
  | some s => if s = "" then "unknown" else s
  | none => "unknown"

/-- Property status: three-valued from the revoked flag. -/
def SSLMateCertificate.status (c : SSLMateCertificate) : String :=
  match c.revoked with
  | some true => "revoked"
  | some false => "valid"
  | none => "unknown"

/-- Serialization model_dump() of a certificate back to JSON. -/
def SSLMateCertificate.model_dump (c : SSLMateCertificate) : Json :=
  .obj [("id", .str c.id),
        ("tbs_sha256", .str c.tbs_sha256),
        ("cert_sha256", match c.cert_sha256 with
                        | some s => .str s
                        | none => .null),
        ("dns_names", match c.dns_names with
                      | some l => .arr (l.map .str)
                      | none => .null),
        ("pubkey_sha256", .str c.pubkey_sha256),
        ("not_before", .str c.not_before),
        ("not_after", .str c.not_after),
        ("revoked", match c.revoked with
                    | some b => .bool b
                    | none => .null),
        ("issuer", match c.issuer with
                   | some o => .obj o
                   | none => .null)]

/-- The not_after timestamp of a raw record, as read by the expiry
check in search_certificates: cert_data.get("not_after", "") followed
by datetime.fromisoformat on the Z-normalized string.  The parameter
pt abstracts the timestamp parser mapping a string to a comparable
UTC instant; none models a raised ValueError (including an absent
field, where the empty-string default never parses, and a naive
timestamp that cannot be compared with an aware one).  A non-string
field value raises before parsing. -/
def notAfterTime (pt : String → Option Int) : Json → Option Int
  | .obj o =>
    match jget o "not_after" with
    | some (.str s) => pt s
    | none => pt ""
    | some _ => none
  | _ => none

/-- One iteration of the record loop of search_certificates (lines
164-182): with include_expired false, a record whose not_after fails
to parse or lies in the past is skipped; then the certificate is
constructed, a failure being skipped with a logged warning.  Returns
the certificate appended by the iteration, or none when the iteration
hits continue. -/
def keptCert (pt : String → Option Int) (now : Int) (include_expired : Bool)
    (cert_data : Json) : Option SSLMateCertificate :=
  if include_expired = false then
    match notAfterTime pt cert_data with
    | none => none
    | some t => if t < now then none else parseCertJson cert_data
  else parseCertJson cert_data

/-- The record loop of search_certificates: processes the upstream
list in order, accumulating parsed certificates, and breaks out of
the loop as soon as the accumulated length reaches the limit, the
break being tested after each append. -/
def processRecords (pt : String → Option Int) (now limit : Int)
    (include_expired : Bool) :
    List Json → List SSLMateCertificate → List SSLMateCertificate
  | [], certificates => certificates
  | cert_data :: rest, certificates =>
    match keptCert pt now include_expired cert_data with
    | none => processRecords pt now limit include_expired rest certificates
    | some cert =>
      let certificates2 := certificates ++ [cert]
      if limit ≤ (certificates2.length : Int) then certificates2
      else processRecords pt now limit include_expired rest certificates2

/-- SSLMateClient.search_certificates (lines 134-184), from the point
the upstream response body has been decoded to a list of JSON values:
the query and include_subdomains parameters only shape the HTTP
request and do not affect the client-side filtering, so they are
omitted; pt is the timestamp parser and now the current UTC instant
datetime.now(timezone.utc). -/
def searchCertificates (pt : String → Option Int) (now : Int)
    (data : List Json) (limit : Int) (include_expired : Bool) :
    List SSLMateCertificate :=
  processRecords pt now limit include_expired data []

/-- SSLMateClient.get_certificate_details (lines 193-208): the
CertSpotter API has no fetch-by-id endpoint, so the body only logs a
warning and returns None, for every identifier. -/
def getCertificateDetails (_cert_id : String) : Option SSLMateCertificate :=
  none

/-- A JSON-RPC identifier value as echoed by the server: a number, a
string, or the JSON null that json.dumps produces for Python None. -/
inductive RpcId where
  | num (n : Int) : RpcId
  | str (s : String) : RpcId
  | null : RpcId
deriving DecidableEq

/-- One decoded request object, as consumed by handle_request.  The
id field distinguishes presence from absence: none models a message
whose JSON object has no id key (a Python dict where the membership
test id in request is false), which handle_request treats as a
notification.  Only the tools/call branch reads params, as
params.get("name") and params.get("arguments", default empty), so the
two are embedded directly; an absent arguments object is the empty
list.  The model covers messages whose method is a string and whose
params name value, when present, is a string. -/
structure RpcRequest where
  method : String
  id : Option RpcId
  toolName : Option String
  arguments : List (String × Json)

/-- The id value echoed into responses: request.get("id"), which is
Python None (serialized null) when the field is absent. -/
def RpcRequest.echoId (req : RpcRequest) : RpcId :=
  req.id.getD RpcId.null

/-- A JSON-RPC error object with code and message. -/
structure RpcError where
  code : Int
  message : String

/-- A parameter entry of a tool input schema: type, description and
an optional declared default value. -/
structure ParamSpec where
  type : String
  description : String
  default : Option Json

/-- The inputSchema built by add_tool: type object, the given
properties, and a required list. -/
structure InputSchema where
  properties : List (String × ParamSpec)
  required : List String

/-- The descriptor of a tool as advertised by tools/list: name,
description and input schema. -/
structure ToolDescriptor where
  name : String
  description : String
  inputSchema : InputSchema

/-- A registered tool handler: an async callable from the keyword
arguments to a JSON-serializable value; a raised exception is
modelled as an error value carrying str(e). -/
def ToolHandler : Type :=
  List (String × Json) → Except String Json

/-- A registered tool entry of MCPServer.tools, as stored by
add_tool. -/
structure ToolInfo where
  name : String
  description : String
  inputSchema : InputSchema
  handler : ToolHandler

/-- A registered resource entry of MCPServer.resources, as stored by
add_resource; the stored handler is never read by the dispatcher, so
it is not carried here. -/
structure ResourceInfo where
  uri : String
  description : String

/-- The result payload of a successful response, covering the four
result-producing branches of handle_request.  The tools/call result
wraps the handler value as one text content block holding its JSON
serialization; the wrapped value is kept structured here. -/
inductive RpcResult where
  | initResult (protocolVersion name version : String) : RpcResult
  | toolsList (tools : List ToolDescriptor) : RpcResult
  | toolCallContent (result : Json) : RpcResult
  | resourcesList (resources : List (String × String)) : RpcResult

/-- One response frame written to standard output: an optional id
field (none when handle_request omits the key for a notification-style
initialize or tools/list message) and exactly one of a result payload
or an error object. -/
structure RpcResponse where
  id : Option RpcId
  payload : Except RpcError RpcResult

/-- The server state: name, version, and the registries of tools and
resources, both Python dicts in insertion order. -/
structure MCPServer where
  name : String
  version : String
  tools : List ToolInfo
  resources : List ResourceInfo

/-- Python dict assignment self.tools[name] = value: replacement keeps
the position of an existing key, a new key is appended. -/
def insertTool : List ToolInfo → ToolInfo → List ToolInfo
  | [], t => [t]
  | t0 :: rest, t =>
    if t0.name = t.name then t :: rest else t0 :: insertTool rest t

/-- MCPServer.add_tool (lines 225-236): registers the tool under its
name with an inputSchema whose required list is
list(parameters.keys()), that is, every declared parameter name. -/
def MCPServer.add_tool (srv : MCPServer) (name description : String)
    (parameters : List (String × ParamSpec)) (handler : ToolHandler) :
    MCPServer :=
  { srv with
    tools := insertTool srv.tools
      { name := name, description := description,
        inputSchema := { properties := parameters,
                         required := parameters.map Prod.fst },
        handler := handler } }

/-- Python dict assignment for the resource registry. -/
def insertResource : List ResourceInfo → ResourceInfo → List ResourceInfo
  | [], r => [r]
  | r0 :: rest, r =>
    if r0.uri = r.uri then r :: rest else r0 :: insertResource rest r

/-- MCPServer.add_resource (lines 238-244). -/
def MCPServer.add_resource (srv : MCPServer) (uri_template description : String) :
    MCPServer :=
  { srv with
    resources := insertResource srv.resources
      { uri := uri_template, description := description } }

/-- The registry lookup tool_name in self.tools of the tools/call
branch; an absent name (Python None) never matches a key. -/
def MCPServer.findTool (srv : MCPServer) (tool_name : Option String) :
    Option ToolInfo :=
  match tool_name with
  | some n => srv.tools.find? (fun t => t.name == n)
  | none => none

/-- The f-string rendering of the possibly absent tool name in the
Tool not found message. -/
def pyShowOptStr : Option String → String
  | some s => s
  | none => "None"

/-- MCPServer.handle_request (lines 246-364).  Routes by method name;
the initialize and tools/list branches omit the id key when the
message has no id field, the remaining branches always carry an id
(null when the field was absent); the method notifications/initialized
returns None so that no frame is written; a handler-raised exception
is caught and turned into a code -32603 response carrying str(e). -/
def MCPServer.handle_request (srv : MCPServer) (req : RpcRequest) :
    Option RpcResponse :=
  let request_id := req.echoId
  let is_notification := req.id.isNone
  if req.method = "initialize" then
    some { id := if is_notification then none else some request_id,
           payload := .ok (.initResult "2024-11-05" srv.name srv.version) }
  else if req.method = "notifications/initialized" then
    none
  else if req.method = "tools/list" then
    some { id := if is_notification then none else some request_id,
           payload := .ok (.toolsList (srv.tools.map fun t =>
             { name := t.name, description := t.description,
               inputSchema := t.inputSchema })) }
  else if req.method = "tools/call" then
    match srv.findTool req.toolName with
    | some t =>
      match t.handler req.arguments with
      | .ok result =>
        some { id := some request_id,
               payload := .ok (.toolCallContent result) }
      | .error e =>
        some { id := some request_id,
               payload := .error { code := -32603,
                                   message := "Internal error: " ++ e } }
    | none =>
      some { id := some request_id,
             payload := .error { code := -32601,
                                 message := "Tool not found: " ++
                                   pyShowOptStr req.toolName } }
  else if req.method = "resources/list" then
    some { id := some request_id,
           payload := .ok (.resourcesList (srv.resources.map fun r =>
             (r.uri, r.description))) }
  else
    some { id := some request_id,
           payload := .error { code := -32601,
                               message := "Method not found: " ++ req.method } }

/-- One line read from standard input by run_stdio: whitespace-only
(skipped), a line that fails json.loads, or a decoded request. -/
inductive InputLine where
  | blank : InputLine
  | malformed (s : String) : InputLine
  | request (r : RpcRequest) : InputLine

/-- The frame written on a JSONDecodeError (lines 391-402): id null,
code -32700. -/
def parseErrorResponse : RpcResponse :=
  { id := some RpcId.null,
    payload := .error { code := -32700, message := "Parse error" } }

/-- The frames written to standard output for one input line (the
body of the while loop of run_stdio, lines 372-415): a blank line is
skipped, a malformed line is answered with the parse-error frame and
the loop continues, a decoded request is dispatched and the response
printed unless it is None. -/
def processLine (srv : MCPServer) : InputLine → List RpcResponse
  | .blank => []
  | .malformed _ =>
    [{ id := some RpcId.null,
       payload := .error { code := -32700, message := "Parse error" } }]
  | .request r => (srv.handle_request r).toList

/-- MCPServer.run_stdio (lines 366-423) over a finite input stream:
lines are processed strictly in order, each frame is printed and
flushed before the next line is read, and the loop ends only at end
of input. -/
def runStdio (srv : MCPServer) : List InputLine → List RpcResponse
  | [] => []
  | l :: rest => processLine srv l ++ runStdio srv rest

/-- The declared parameters of the search_certificates tool
(_setup_tools, lines 487-498): limit, include_expired and
include_subdomains each declare a default. -/
def searchCertificatesParams : List (String × ParamSpec) :=
  [("query", { type := "string",
               description := "Domain name to search for certificates",
               default := none }),
   ("limit", { type := "integer",
               description := "Maximum number of results (default: 100)",
               default := some (.num 100) }),
   ("include_expired", { type := "boolean",
                         description := "Include expired certificates (default: false)",
                         default := some (.bool false) }),
   ("include_subdomains", { type := "boolean",
                            description := "Include certificates for subdomains (default: false)",
                            default := some (.bool false) })]

/-- The declared parameters of the get_certificate_details tool
(lines 500-507). -/
def certDetailsParams : List (String × ParamSpec) :=
  [("cert_id", { type := "string",
                 description := "Certificate ID from SSLMate",
                 default := none })]

/-- The handler get_certificate_details_handler (lines 464-485)
applied to its cert_id argument: the client lookup never finds a
certificate, so the not-found result object is returned; the body
never raises, its try arm being exception-free and the except arm
returning an error object as well. -/
def getCertificateDetailsHandler (cert_id : String) : Json :=
  match getCertificateDetails cert_id with
  | some certificate =>
    .obj [("certificate_id", .str cert_id),
          ("certificate", certificate.model_dump)]
  | none =>
    .obj [("error", .str "Certificate not found"),
          ("certificate_id", .str cert_id)]

/-- SSLMateMCPServer construction (lines 429-434 together with
_setup_tools and _setup_resources): the MCPServer named sslmate-mcp
version 0.1.0 with the two tools and the search resource registered in
order.  The tool handlers close over the HTTP client, so they are
parameters here. -/
def sslmateServer (searchHandler detailsHandler : ToolHandler) : MCPServer :=
  ((({ name := "sslmate-mcp", version := "0.1.0",
       tools := [], resources := [] } :
      MCPServer).add_tool "search_certificates"
        "Search for SSL/TLS certificates using SSLMate Certificate Transparency API"
        searchCertificatesParams searchHandler).add_tool
      "get_certificate_details"
      "Get detailed information about a specific certificate"
      certDetailsParams detailsHandler).add_resource
    "sslmate://search/{query}" "Certificate search results"

/-! ### Helper lemmas about the search loop -/

/-- The record loop with an accumulator shorter than the limit
produces the accumulator followed by the kept records of the
remaining data, truncated to the room left under the limit. -/
theorem processRecords_spec (pt : String → Option Int) (now limit : Int)
    (ie : Bool) (data : List Json) :
    ∀ acc : List SSLMateCertificate, (acc.length : Int) < limit →
      processRecords pt now limit ie data acc =
        acc ++ (data.filterMap (keptCert pt now ie)).take
          (limit - acc.length).toNat := by
  induction data with
  | nil => intro acc h; simp [processRecords]
  | cons cd rest ih =>
    intro acc h
    cases hk : keptCert pt now ie cd with
    | none =>
      rw [processRecords, hk, ih acc h, List.filterMap_cons_none hk]
    | some cert =>
      simp only [processRecords, hk, List.filterMap_cons]
      by_cases hl : limit ≤ ((acc ++ [cert]).length : Int)
      · rw [if_pos hl]
        have hone : (limit - (acc.length : Int)).toNat = 1 := by
          simp only [List.length_append, List.length_cons,
            List.length_nil] at hl
          omega
        rw [hone, List.take_succ_cons, List.take_zero]
      · rw [if_neg hl]
        have h2 : (((acc ++ [cert]).length : Int)) < limit := by
          omega
        rw [ih (acc ++ [cert]) h2]
        have hsplit : (limit - (acc.length : Int)).toNat =
            ((limit - ((acc ++ [cert]).length : Int)).toNat) + 1 := by
          simp only [List.length_append, List.length_cons, List.length_nil]
          push_cast
          omega
        rw [hsplit, List.take_succ_cons, List.append_assoc,
          List.singleton_append]

/-- The raw-record predicate of the expiry filter: the not_after
field parses and is not earlier than the call time. -/
def futureRecord (pt : String → Option Int) (now : Int) (cd : Json) : Bool :=
  match notAfterTime pt cd with
  | some t => decide (now ≤ t)
  | none => false

/-- With include_expired false, one pass of the loop keeps exactly
the parseable certificates of the records passing the expiry
filter. -/
theorem filterMap_keptCert_false (pt : String → Option Int) (now : Int)
    (data : List Json) :
    data.filterMap (keptCert pt now false) =
      (data.filter (futureRecord pt now)).filterMap parseCertJson := by
  induction data with
  | nil => rfl
  | cons cd rest ih =>
    cases hn : notAfterTime pt cd with
    | none =>
      have hk : keptCert pt now false cd = none := by
        simp [keptCert, hn]
      have hf : futureRecord pt now cd = false := by
        simp [futureRecord, hn]
      rw [List.filterMap_cons_none hk, List.filter_cons_of_neg (by simp [hf]),
        ih]
    | some t =>
      by_cases ht : t < now
      · have hk : keptCert pt now false cd = none := by
          simp [keptCert, hn, ht]
        have hf : futureRecord pt now cd = false := by
          simp [futureRecord, hn]
          omega
        rw [List.filterMap_cons_none hk, List.filter_cons_of_neg (by simp [hf]),
          ih]
      · have hk : keptCert pt now false cd = parseCertJson cd := by
          simp [keptCert, hn, ht]
        have hf : futureRecord pt now cd = true := by
          simp [futureRecord, hn]
          omega
        rw [List.filter_cons_of_pos (by simp [hf]), List.filterMap_cons,
          List.filterMap_cons, hk, ih]

/-- With include_expired true, one pass of the loop keeps exactly the
parseable certificates. -/
theorem keptCert_true (pt : String → Option Int) (now : Int) :
    keptCert pt now true = parseCertJson := by
  funext cd
  simp [keptCert]

/-! ### Claims C4 and C5: the search client -/

/-- C4 (amended).  With include_expired false and a limit of at least
one, search_certificates returns exactly the parseable records whose
not-after timestamp is not earlier than the call time, in response
order, truncated to the first limit such records: the limit is
counted after the expiry filter.  The amendment restricts the cap to
limits of at least one; the claim as frozen fails for limit zero or
negative, where one record is still returned, as the break that
enforces the cap only runs after a record has been appended. -/
theorem C4_filter_then_limit (pt : String → Option Int) (now : Int)
    (data : List Json) (limit : Int) (h : 1 ≤ limit) :
    searchCertificates pt now data limit false =
      ((data.filter (futureRecord pt now)).filterMap parseCertJson).take
        limit.toNat := by
  unfold searchCertificates
  rw [processRecords_spec pt now limit false data []
    (by simpa using (by omega : (0 : Int) < limit))]
  rw [filterMap_keptCert_false]
  simp

/-- A time parser used for concrete inputs: the length of the string,
so that the string 2099 parses to instant 4 and the empty string to
instant 0. -/
def lenTime : String → Option Int :=
  fun s => some (s.length : Int)

/-- A raw upstream record carrying every required field, with a
not-after string of length 4. -/
def futureRec : Json :=
  .obj [("id", .str "a"), ("tbs_sha256", .str "ta"),
        ("pubkey_sha256", .str "pa"), ("not_before", .str "nb"),
        ("not_after", .str "2099")]

/-- A raw upstream record carrying every required field, whose
not-after string is empty, hence expired relative to call time 2. -/
def expiredRec : Json :=
  .obj [("id", .str "b"), ("tbs_sha256", .str "tb"),
        ("pubkey_sha256", .str "pb"), ("not_before", .str "nb"),
        ("not_after", .str "")]

/-- C4 counterexample: at limit zero the claimed cap is violated.
With a single valid non-expired upstream record and limit 0, the
claim as frozen says at most zero records are returned, but the code
returns one: the limit check runs only after the append. -/
theorem C4_claim_counterexample :
    (searchCertificates lenTime 0 [futureRec] 0 false).length = 1 := by
  rfl

/-- C4 witness: the amended theorem applied at call time 2 to a mixed
list of one expired and one future record with limit 1. -/
theorem C4_filter_witness :
    (1 : Int) ≤ 1 ∧
    searchCertificates lenTime 2 [expiredRec, futureRec] 1 false =
      ((([expiredRec, futureRec]).filter (futureRecord lenTime 2)).filterMap
        parseCertJson).take (Int.toNat 1) :=
  ⟨le_refl 1, C4_filter_then_limit lenTime 2 [expiredRec, futureRec] 1 (le_refl 1)⟩

/-- C5 (as stated, in the regime the claim describes: the expiry
filter disabled and the limit not reached).  An upstream response of
N parseable and M unparseable records yields exactly the N parseable
records, in order: every malformed record is skipped, no failure
escapes, and a malformed record does not discard records already
parsed. -/
theorem C5_malformed_records_skipped (pt : String → Option Int) (now : Int)
    (data : List Json) (limit : Int) (h1 : 1 ≤ limit)
    (h2 : ((data.filterMap parseCertJson).length : Int) ≤ limit) :
    searchCertificates pt now data limit true = data.filterMap parseCertJson := by
  unfold searchCertificates
  rw [processRecords_spec pt now limit true data []
    (by simpa using (by omega : (0 : Int) < limit))]
  rw [keptCert_true]
  simp only [List.length_nil, Nat.cast_zero, Int.sub_zero, List.nil_append]
  exact List.take_of_length_le (by omega)

/-- A malformed upstream record: a JSON object missing the required
tbs_sha256 and other fields, whose construction fails. -/
def malformedRec : Json :=
  .obj [("id", .str "m")]

/-- C5 witness: two parseable records with one malformed object and
one non-object interleaved yield exactly the two parseable records. -/
theorem C5_skipped_witness :
    (1 : Int) ≤ 100 ∧
    ((([futureRec, malformedRec, Json.str "junk", expiredRec]).filterMap
        parseCertJson).length : Int) ≤ 100 ∧
    searchCertificates lenTime 2 [futureRec, malformedRec, Json.str "junk",
        expiredRec] 100 true =
      ([futureRec, malformedRec, Json.str "junk", expiredRec]).filterMap
        parseCertJson :=
  ⟨by decide, by decide,
   C5_malformed_records_skipped lenTime 2
     [futureRec, malformedRec, Json.str "junk", expiredRec] 100
     (by decide) (by decide)⟩

/-! ### Claim C9: certificate construction -/

/-- An association list none of whose keys is the sought key yields
no binding. -/
theorem jget_of_forall_ne (l : List (String × Json)) (k : String)
    (h : ∀ kv ∈ l, kv.1 ≠ k) : jget l k = none := by
  induction l with
  | nil => rfl
  | cons kv rest ih =>
    obtain ⟨k2, v⟩ := kv
    rw [jget, if_neg (h (k2, v) (List.mem_cons_self _ _))]
    exact ih fun kv2 hm => h kv2 (List.mem_cons_of_mem _ hm)

/-- The field names declared on the pydantic model. -/
def certKnownKeys : List String :=
  ["id", "tbs_sha256", "cert_sha256", "dns_names", "pubkey_sha256",
   "not_before", "not_after", "revoked", "issuer"]

/-- An API record carrying exactly the five required fields of the
model, each as a string. -/
def mkRequiredFields (i t p nb na : String) : List (String × Json) :=
  [("id", .str i), ("tbs_sha256", .str t), ("pubkey_sha256", .str p),
   ("not_before", .str nb), ("not_after", .str na)]

/-- The certificate constructed when every optional field is absent:
cert_sha256, revoked and issuer default to None, dns_names to the
empty list. -/
def degradedCert (i t p nb na : String) : SSLMateCertificate :=
  { id := i, tbs_sha256 := t, cert_sha256 := none, dns_names := some [],
    pubkey_sha256 := p, not_before := nb, not_after := na,
    revoked := none, issuer := none }

/-- C9 (amended).  Construction never fails because of an unknown
field or a missing optional field: for a record carrying the five
required string fields, any set of extra fields not declared on the
model is ignored, construction succeeds, and with the optional fields
absent all four derived fields degrade to the sentinel unknown.  The
amendment excludes missing required fields: the claim as frozen fails
there, since id, tbs_sha256, pubkey_sha256, not_before and not_after
carry no default and their absence fails construction. -/
theorem C9_optional_fields_degrade (i t p nb na : String)
    (extras : List (String × Json))
    (h : ∀ kv ∈ extras, kv.1 ∉ certKnownKeys) :
    parseCert (mkRequiredFields i t p nb na ++ extras) =
      some (degradedCert i t p nb na) ∧
    (degradedCert i t p nb na).common_name = "unknown" ∧
    (degradedCert i t p nb na).issuer_name = Json.str "unknown" ∧
    (degradedCert i t p nb na).fingerprint_sha256 = "unknown" ∧
    (degradedCert i t p nb na).status = "unknown" := by
  have hnk : ∀ k, k ∈ certKnownKeys → jget extras k = none := by
    intro k hk
    refine jget_of_forall_ne extras k fun kv hm => ?_
    intro heq
    exact h kv hm (heq ▸ hk)
  have e1 : jget extras "cert_sha256" = none := hnk _ (by decide)
  have e2 : jget extras "dns_names" = none := hnk _ (by decide)
  have e3 : jget extras "revoked" = none := hnk _ (by decide)
  have e4 : jget extras "issuer" = none := hnk _ (by decide)
  refine ⟨?_, rfl, rfl, rfl, rfl⟩
  simp [parseCert, mkRequiredFields, jget, e1, e2, e3, e4, getStr,
    getOptStr, getDnsNames, getOptBool, getOptObj, degradedCert]

/-- C9 counterexample: a record missing the required field id (while
carrying the other four required fields) fails construction, against
construction never fails because of a missing field. -/
theorem C9_claim_counterexample :
    parseCert [("tbs_sha256", .str "t"), ("pubkey_sha256", .str "p"),
               ("not_before", .str "nb"), ("not_after", .str "na")] = none := by
  rfl

/-- C9 witness: the amended theorem applied to concrete required
fields and one unknown extra field. -/
theorem C9_degrade_witness :
    (∀ kv ∈ [(("certificate_chain" : String), Json.null)],
        kv.1 ∉ certKnownKeys) ∧
    parseCert (mkRequiredFields "i" "t" "p" "nb" "na" ++
        [("certificate_chain", Json.null)]) =
      some (degradedCert "i" "t" "p" "nb" "na") :=
  ⟨by decide,
   (C9_optional_fields_degrade "i" "t" "p" "nb" "na"
     [("certificate_chain", Json.null)] (by decide)).1⟩

/-! ### Claims C1, C2, C3, C7, C8: dispatcher and transport loop -/

/-- A tool handler that always succeeds, standing in for the real
closures when only routing behaviour is at stake. -/
def trivialOkHandler : ToolHandler :=
  fun _ => Except.ok Json.null

/-- The concrete sslmate server with trivially succeeding tool
handlers, used for concrete inputs. -/
def sampleServer : MCPServer :=
  sslmateServer trivialOkHandler trivialOkHandler

/-- Dispatching a message that carries an identifier and whose method
is not notifications/initialized yields exactly one response, and
that response carries the same identifier. -/
theorem handle_request_echoes_id (srv : MCPServer) (r : RpcRequest)
    (i : RpcId) (hid : r.id = some i)
    (hm : r.method ≠ "notifications/initialized") :
    ∃ resp, srv.handle_request r = some resp ∧ resp.id = some i := by
  simp only [MCPServer.handle_request, RpcRequest.echoId, hid,
    Option.isNone_some, Option.getD_some, Bool.false_eq_true, if_false]
  by_cases h1 : r.method = "initialize"
  · exact ⟨_, by rw [if_pos h1], rfl⟩
  rw [if_neg h1, if_neg hm]
  by_cases h2 : r.method = "tools/list"
  · exact ⟨_, by rw [if_pos h2], rfl⟩
  rw [if_neg h2]
  by_cases h3 : r.method = "tools/call"
  · rw [if_pos h3]
    cases hf : srv.findTool r.toolName with
    | none => exact ⟨_, rfl, rfl⟩
    | some t =>
      dsimp only
      cases hh : t.handler r.arguments with
      | ok v => exact ⟨_, rfl, rfl⟩
      | error e => exact ⟨_, rfl, rfl⟩
  rw [if_neg h3]
  by_cases h4 : r.method = "resources/list"
  · exact ⟨_, by rw [if_pos h4], rfl⟩
  exact ⟨_, by rw [if_neg h4], rfl⟩

/-- C1 (amended).  For a stream of well-formed requests each carrying
an identifier and whose method is not notifications/initialized, the
loop emits exactly one response per request, carrying the same
identifier, in the order the requests were read.  The amendment
excludes the method notifications/initialized: the claim as frozen
fails there, since that branch returns no response even when the
message carries an identifier. -/
theorem C1_request_response_pairing (srv : MCPServer)
    (reqs : List RpcRequest)
    (h : ∀ r ∈ reqs, r.id.isSome = true ∧
      r.method ≠ "notifications/initialized") :
    (runStdio srv (reqs.map InputLine.request)).map RpcResponse.id =
      reqs.map RpcRequest.id := by
  induction reqs with
  | nil => rfl
  | cons r rest ih =>
    obtain ⟨hsome, hm⟩ := h r (List.mem_cons_self r rest)
    obtain ⟨i, hi⟩ := Option.isSome_iff_exists.mp hsome
    obtain ⟨resp, hresp, hrid⟩ := handle_request_echoes_id srv r i hi hm
    simp only [List.map_cons, runStdio, processLine, hresp,
      Option.toList_some, List.singleton_append, List.map_cons]
    rw [ih fun q hq => h q (List.mem_cons_of_mem _ hq), hrid, hi]

/-- A request carrying an identifier whose method is the
initialized notification. -/
def c1req : RpcRequest :=
  { method := "notifications/initialized", id := some (RpcId.num 7),
    toolName := none, arguments := [] }

/-- C1 counterexample: a well-formed message carrying identifier 7
with method notifications/initialized produces no response at all,
against exactly one response per identified request. -/
theorem C1_claim_counterexample :
    c1req.id = some (RpcId.num 7) ∧
    runStdio sampleServer [InputLine.request c1req] = [] :=
  ⟨rfl, rfl⟩

/-- Two identified requests used as a concrete stream: a known method
and an unrecognized one. -/
def c1wreqs : List RpcRequest :=
  [{ method := "tools/list", id := some (RpcId.num 1),
     toolName := none, arguments := [] },
   { method := "sslmate/unknown", id := some (RpcId.str "a"),
     toolName := none, arguments := [] }]

/-- C1 witness: the amended theorem applied to the concrete stream. -/
theorem C1_pairing_witness :
    (runStdio sampleServer (c1wreqs.map InputLine.request)).map
        RpcResponse.id = c1wreqs.map RpcRequest.id :=
  C1_request_response_pairing sampleServer c1wreqs (by
    intro r hr
    simp only [c1wreqs, List.mem_cons, List.not_mem_nil, or_false] at hr
    rcases hr with rfl | rfl
    · exact ⟨rfl, by decide⟩
    · exact ⟨rfl, by decide⟩)

/-- C2 (amended).  Among messages with no identifier field, only the
method notifications/initialized is silent; a notification with any
other method, recognized or not, still produces exactly one response
line (with the identifier field omitted for initialize and
tools/list, and null for the remaining branches).  The amendment
reverses the frozen claim for every method other than
notifications/initialized. -/
theorem C2_notification_silence (srv : MCPServer) (r : RpcRequest)
    (h : r.id = none) :
    (processLine srv (InputLine.request r)).length =
      (if r.method = "notifications/initialized" then 0 else 1) := by
  simp only [processLine, MCPServer.handle_request, RpcRequest.echoId, h,
    Option.isNone_none, Option.getD_none, if_true]
  by_cases h1 : r.method = "initialize"
  · rw [if_pos h1, if_neg (by rw [h1]; decide)]
    rfl
  rw [if_neg h1]
  by_cases hm : r.method = "notifications/initialized"
  · rw [if_pos hm, if_pos hm]
    rfl
  rw [if_neg hm, if_neg hm]
  by_cases h2 : r.method = "tools/list"
  · rw [if_pos h2]
    rfl
  rw [if_neg h2]
  by_cases h3 : r.method = "tools/call"
  · rw [if_pos h3]
    cases hf : srv.findTool r.toolName with
    | none => rfl
    | some t =>
      dsimp only
      cases hh : t.handler r.arguments with
      | ok v => rfl
      | error e => rfl
  rw [if_neg h3]
  by_cases h4 : r.method = "resources/list"
  · rw [if_pos h4]
    rfl
  rw [if_neg h4]
  rfl

/-- An initialize message with no identifier field. -/
def c2req : RpcRequest :=
  { method := "initialize", id := none, toolName := none, arguments := [] }

/-- C2 counterexample: an initialize notification (no identifier
field) produces one response line, against zero response lines for
every notification. -/
theorem C2_claim_counterexample :
    c2req.id = none ∧
    (runStdio sampleServer [InputLine.request c2req]).length = 1 :=
  ⟨rfl, rfl⟩

/-- A resources/list message with no identifier field. -/
def c2wreq : RpcRequest :=
  { method := "resources/list", id := none, toolName := none,
    arguments := [] }

/-- C2 witness: the amended theorem applied to a concrete
notification whose method is not notifications/initialized. -/
theorem C2_silence_witness :
    (processLine sampleServer (InputLine.request c2wreq)).length = 1 := by
  have h := C2_notification_silence sampleServer c2wreq rfl
  simpa using h

/-- C3.  A line failing to decode as JSON is answered with exactly
one parse-error frame, whose identifier field is null and whose error
code is -32700, and the loop goes on to process the remaining
lines. -/
theorem C3_parse_error_recovery (srv : MCPServer) (s : String)
    (rest : List InputLine) :
    runStdio srv (InputLine.malformed s :: rest) =
      parseErrorResponse :: runStdio srv rest ∧
    parseErrorResponse.id = some RpcId.null ∧
    parseErrorResponse.payload =
      Except.error { code := -32700, message := "Parse error" } := by
  exact ⟨rfl, rfl, rfl⟩

/-- The error code of a response frame, none when the frame is a
result or absent. -/
def respErrorCode : Option RpcResponse → Option Int
  | some r =>
    match r.payload with
    | .error e => some e.code
    | .ok _ => none
  | none => none

/-- The result payload of a response frame, none when the frame is an
error or absent: an error response carries no content block. -/
def respResult : Option RpcResponse → Option RpcResult
  | some r =>
    match r.payload with
    | .ok v => some v
    | .error _ => none
  | none => none

/-- The method names handle_request routes explicitly. -/
def knownMethods : List String :=
  ["initialize", "notifications/initialized", "tools/list", "tools/call",
   "resources/list"]

/-- C7.  A tools/call request naming an unregistered tool, and a
request with an unrecognized method, are both answered with an error
object of code -32601 and no result payload (the response carries an
error in place of a result, hence no content block). -/
theorem C7_unknown_tool_or_method (srv : MCPServer) (r : RpcRequest)
    (h : (r.method = "tools/call" ∧ srv.findTool r.toolName = none) ∨
      r.method ∉ knownMethods) :
    respErrorCode (srv.handle_request r) = some (-32601) ∧
    respResult (srv.handle_request r) = none := by
  rcases h with ⟨hm, hf⟩ | hm
  · simp [MCPServer.handle_request, hm, hf, respErrorCode, respResult]
  · simp only [knownMethods, List.mem_cons, List.not_mem_nil, or_false,
      not_or] at hm
    obtain ⟨h1, h2, h3, h4, h5⟩ := hm
    simp [MCPServer.handle_request, h1, h2, h3, h4, h5, respErrorCode,
      respResult]

/-- A tools/call request naming a tool that is not registered. -/
def c7req : RpcRequest :=
  { method := "tools/call", id := some (RpcId.num 3),
    toolName := some "no_such_tool", arguments := [] }

/-- C7 witness: the theorem applied to a concrete unknown-tool
request against the concrete server. -/
theorem C7_unknown_witness :
    respErrorCode (sampleServer.handle_request c7req) = some (-32601) ∧
    respResult (sampleServer.handle_request c7req) = none :=
  C7_unknown_tool_or_method sampleServer c7req (Or.inl ⟨rfl, rfl⟩)

/-- C8.  A handler failure during a tools/call dispatch is caught and
turned into a response of code -32603 whose message carries the
failure message, and the loop stays alive: the remaining input lines
are processed exactly as they would have been. -/
theorem C8_handler_failure_contained (srv : MCPServer) (r : RpcRequest)
    (t : ToolInfo) (e : String) (rest : List InputLine)
    (hm : r.method = "tools/call")
    (hf : srv.findTool r.toolName = some t)
    (hh : t.handler r.arguments = Except.error e) :
    srv.handle_request r =
      some { id := some r.echoId,
             payload := Except.error
               { code := -32603, message := "Internal error: " ++ e } } ∧
    runStdio srv (InputLine.request r :: rest) =
      { id := some r.echoId,
        payload := Except.error
          { code := -32603, message := "Internal error: " ++ e } } ::
        runStdio srv rest := by
  have h1 : srv.handle_request r =
      some { id := some r.echoId,
             payload := Except.error
               { code := -32603, message := "Internal error: " ++ e } } := by
    simp [MCPServer.handle_request, hm, hf, hh]
  exact ⟨h1, by simp [runStdio, processLine, h1]⟩

/-- A tool handler that always raises, modelling a failing upstream
call whose exception message is boom. -/
def failingHandler : ToolHandler :=
  fun _ => Except.error "boom"

/-- The concrete sslmate server whose search handler always fails. -/
def failServer : MCPServer :=
  sslmateServer failingHandler trivialOkHandler

/-- A tools/call request for the search tool against the failing
server. -/
def c8req : RpcRequest :=
  { method := "tools/call", id := some (RpcId.num 9),
    toolName := some "search_certificates", arguments := [] }

/-- C8 witness: the theorem applied to the concrete failing server
and a one-request stream. -/
theorem C8_contained_witness :
    failServer.handle_request c8req =
      some { id := some c8req.echoId,
             payload := Except.error
               { code := -32603, message := "Internal error: " ++ "boom" } } ∧
    runStdio failServer (InputLine.request c8req :: []) =
      { id := some c8req.echoId,
        payload := Except.error
          { code := -32603, message := "Internal error: " ++ "boom" } } ::
        runStdio failServer [] :=
  C8_handler_failure_contained failServer c8req
    { name := "search_certificates",
      description := "Search for SSL/TLS certificates using SSLMate Certificate Transparency API",
      inputSchema := { properties := searchCertificatesParams,
                       required := searchCertificatesParams.map Prod.fst },
      handler := failingHandler } "boom" [] rfl rfl rfl

/-! ### Claim C6: get_certificate_details -/

/-- C6.  For every certificate identifier the client lookup yields no
certificate and the tool handler returns a result object whose error
field reads Certificate not found and which carries no certificate
field.  Neither function can raise: both are total functions of the
identifier, matching the source, whose bodies catch every
exception. -/
theorem C6_details_always_not_found (cert_id : String) :
    getCertificateDetails cert_id = none ∧
    objField (getCertificateDetailsHandler cert_id) "error" =
      some (Json.str "Certificate not found") ∧
    objField (getCertificateDetailsHandler cert_id) "certificate" = none := by
  exact ⟨rfl, rfl, rfl⟩

/-! ### Claim C10: required parameter lists -/

/-- The descriptor of the search tool as advertised by tools/list:
every one of the four declared parameters is listed as required, the
three defaulted ones included. -/
def searchToolDescriptor : ToolDescriptor :=
  { name := "search_certificates",
    description := "Search for SSL/TLS certificates using SSLMate Certificate Transparency API",
    inputSchema := { properties := searchCertificatesParams,
                     required := ["query", "limit", "include_expired",
                                  "include_subdomains"] } }

/-- The descriptor of the details tool as advertised by tools/list. -/
def detailsToolDescriptor : ToolDescriptor :=
  { name := "get_certificate_details",
    description := "Get detailed information about a specific certificate",
    inputSchema := { properties := certDetailsParams,
                     required := ["cert_id"] } }

/-- Looking a tool up right after registering it finds the fresh
entry, whether the name was new or replaced. -/
theorem find_insertTool (l : List ToolInfo) (t : ToolInfo) (n : String)
    (hn : t.name = n) :
    (insertTool l t).find? (fun x => x.name == n) = some t := by
  subst hn
  induction l with
  | nil => simp [insertTool, List.find?]
  | cons t0 rest ih =>
    by_cases h : t0.name = t.name
    · simp [insertTool, h, List.find?]
    · have hb : (t0.name == t.name) = false := by simp [h]
      simp only [insertTool, if_neg h, List.find?, hb]
      exact ih

/-- C10.  Every tool registered through add_tool advertises an
inputSchema whose required list is exactly the full list of declared
parameter names, defaulted parameters included; in particular
tools/list on the sslmate server advertises search_certificates with
required list query, limit, include_expired, include_subdomains, the
last three of which declare defaults. -/
theorem C10_required_lists_all_params (srv : MCPServer) (n d : String)
    (ps : List (String × ParamSpec)) (hdl : ToolHandler)
    (sh dh : ToolHandler) (reqId : RpcId) :
    (∃ ti, (srv.add_tool n d ps hdl).findTool (some n) = some ti ∧
      ti.inputSchema.required = ps.map Prod.fst) ∧
    (sslmateServer sh dh).handle_request
        { method := "tools/list", id := some reqId, toolName := none,
          arguments := [] } =
      some { id := some reqId,
             payload := .ok (.toolsList [searchToolDescriptor,
               detailsToolDescriptor]) } ∧
    searchToolDescriptor.inputSchema.required =
      searchCertificatesParams.map Prod.fst ∧
    ((searchCertificatesParams.filter fun p => p.2.default.isSome).map
        Prod.fst) = ["limit", "include_expired", "include_subdomains"] := by
  refine ⟨?_, rfl, rfl, rfl⟩
  exact ⟨_, find_insertTool srv.tools _ n rfl, rfl⟩

end SslmateMcp
